import Mathlib

/-
Shallow embedding of the brazier crate (src/lib.rs, src/error.rs): a mediator
pattern with a type-erased handler registry.

Modelling choices, each justified against the source:

* Rust type identities (`TypeId`) are modelled as natural numbers.  A request
  type is a `TypeId`; a response type is a `TypeId`.
* All request values, response values, and handler-internal state are
  modelled as `Nat`.  The Rust code is generic over these; none of the
  dispatch logic inspects them, so a single value universe is faithful.
* `Box<dyn Error>` (the error side of `brazier::Result`) is modelled by
  `BoxError`: either the mediator's own `MediatorError` or an opaque
  handler-originated error carrying an opaque payload.  `downcast_ref` on it
  is not needed by the claims beyond distinguishing these constructors.
* A handler (`Box<dyn RequestHandler<TRequest, TResponse>>`) is a
  `HandlerImpl`: internal mutable state (`&mut self`) plus the `handle`
  code, which maps current state and a request value to new state and a
  `Result`.  `async` and `.await` collapse to plain function application:
  the mediator merely awaits the handler's completion.
* `Box<dyn Any>` values stored in the `TypeMap` are modelled by `Erased`:
  the value's runtime `TypeId` together with the payload.  In the source the
  only values ever stored are `Box<dyn RequestHandler<TRequest, TResponse>>`
  boxes (the `TypeMap` is private and only `register_handler` calls `set`),
  whose `TypeId` is an injective function of the pair (TRequest, TResponse);
  we use that pair itself as the runtime tag.  `downcast_mut::<TValue>()`
  is the checked comparison of the stored tag with the requested tag.
* `HashMap<TypeId, Box<dyn Any>>` is modelled as an association list with
  `insert` replacing in place; the map is only used through keyed `insert`
  and `get_mut`, never iterated, so ordering is irrelevant.
* `&mut` mutation of the resolved handler during `send` is modelled by
  writing the updated handler state back into the map under the same key
  and tag, which is what in-place mutation through `get_mut` amounts to.
-/

namespace Brazier

/-- Runtime type identity, standing for `std::any::TypeId`. -/
abbrev TypeId := Nat

/-- Mirror of `MediatorError` in src/error.rs. -/
inductive MediatorError where
  | handlerNotRegisteredError
deriving DecidableEq

/-- The error side of `brazier::Result`, a `Box<dyn Error>` trait object:
either the mediator's own error type or an opaque handler-originated error. -/
inductive BoxError where
  | mediatorError (e : MediatorError)
  | handlerError (payload : Nat)
deriving DecidableEq

/-- Mirror of `pub type Result<T> = core::result::Result<T, Box<dyn Error>>`
at the fixed value universe `Nat`. -/
inductive Result where
  | ok (v : Nat)
  | err (e : BoxError)
deriving DecidableEq

/-- A registered handler: its internal mutable state together with its
`handle` code.  `handle` takes the current state (`&mut self`) and the
request value and produces the updated state and a `Result`. -/
structure HandlerImpl where
  state : Nat
  handle : Nat → Nat → Nat × Result

/-- A stored `Box<dyn Any>`: the runtime type tag of the boxed value and the
payload.  The only values the crate ever stores are handler boxes of type
`Box<dyn RequestHandler<TRequest, TResponse>>`, whose `TypeId` is determined
by the pair (TRequest's id, TResponse's id); that pair is the tag. -/
structure Erased where
  valueTypeId : TypeId × TypeId
  handler : HandlerImpl

/-- Association-list core of the `HashMap<TypeId, Box<dyn Any>>`:
`insert` semantics — replace in place if the key is present, else append. -/
def insertEntry : List (TypeId × Erased) → TypeId → Erased → List (TypeId × Erased)
  | [], k, v => [(k, v)]
  | (k', v') :: rest, k, v =>
    if k' = k then (k, v) :: rest else (k', v') :: insertEntry rest k v

/-- Association-list lookup, the `HashMap::get_mut` key search. -/
def lookupEntry : List (TypeId × Erased) → TypeId → Option Erased
  | [], _ => none
  | (k', v') :: rest, k => if k' = k then some v' else lookupEntry rest k

/-- Mirror of `struct TypeMap(HashMap<TypeId, Box<dyn Any>>)`. -/
structure TypeMap where
  entries : List (TypeId × Erased)

/-- Mirror of `TypeMap::new`. -/
def TypeMap.new : TypeMap := ⟨[]⟩

/-- Mirror of `TypeMap::set::<TKey, TValue>(value)`: insert under `TKey`'s
type id, unconditionally overwriting. -/
def TypeMap.set (m : TypeMap) (key : TypeId) (value : Erased) : TypeMap :=
  ⟨insertEntry m.entries key value⟩

/-- Mirror of `TypeMap::get_mut::<TKey, TValue>`: look up `TKey`'s id, then
`downcast_mut::<TValue>` — the checked comparison of the stored value's
runtime tag against the requested value type `ty`, yielding `none` on
mismatch. -/
def TypeMap.get_mut (m : TypeMap) (key : TypeId) (ty : TypeId × TypeId) :
    Option HandlerImpl :=
  (lookupEntry m.entries key).bind fun e =>
    if e.valueTypeId = ty then some e.handler else none

/-- Mirror of `pub struct Mediator(TypeMap)`. -/
structure Mediator where
  registry : TypeMap

/-- Mirror of `Mediator::new`. -/
def Mediator.new : Mediator := ⟨TypeMap.new⟩

/-- Mirror of `Mediator::register_handler::<TRequest, TRequestHandler,
TResponse>`: store the handler box under `TRequest`'s id, with stored value
tag `Box<dyn RequestHandler<TRequest, TResponse>>`, i.e. `(reqTy, respTy)`.
It is total: registration has no failure mode.  (The source returns
`&mut Self` for chaining; returning the updated mediator models that.) -/
def Mediator.register_handler (m : Mediator) (reqTy respTy : TypeId)
    (handler : HandlerImpl) : Mediator :=
  ⟨m.registry.set reqTy ⟨(reqTy, respTy), handler⟩⟩

/-- Mirror of `Mediator::send::<TRequest, TResponse>`: `get_mut` with key
`TRequest`'s id and value type `Box<dyn RequestHandler<TRequest,
TResponse>>`; on a hit run `h.handle(request).await` (mutating the stored
handler's state through the `&mut` reference) and return its result; on a
miss return `MediatorError::HandlerNotRegisteredError`.  The returned pair
is (mediator state after the call, value returned to the caller). -/
def Mediator.send (m : Mediator) (reqTy respTy : TypeId) (request : Nat) :
    Mediator × Result :=
  match m.registry.get_mut reqTy (reqTy, respTy) with
  | some h =>
    let r := h.handle h.state request
    (⟨m.registry.set reqTy ⟨(reqTy, respTy), { h with state := r.1 }⟩⟩, r.2)
  | none =>
    (m, Result.err (BoxError.mediatorError MediatorError.handlerNotRegisteredError))

/-- A client-visible operation on a mediator, for reasoning about whole
histories: either a `register_handler` call or a `send` call. -/
inductive MOp where
  | register (reqTy respTy : TypeId) (handler : HandlerImpl)
  | send (reqTy respTy : TypeId) (request : Nat)

/-- Whether an operation registers a handler for request type `t`. -/
def MOp.registersFor : MOp → TypeId → Bool
  | .register rq _ _, t => rq == t
  | .send _ _ _, _ => false

/-- Run one operation against a mediator, keeping the resulting state. -/
def runOp (m : Mediator) : MOp → Mediator
  | .register rq rs h => m.register_handler rq rs h
  | .send rq rs req => (m.send rq rs req).1

/-- Run a history of operations from a starting mediator state. -/
def runOps (m : Mediator) (ops : List MOp) : Mediator :=
  ops.foldl runOp m

/-- The registration state visible for a request-type key: whether an entry
is present and, if so, the (request, response) tag it was registered under
and the handler code stored there.  The handler's internal mutable state is
deliberately not part of this view: the spec's data model lets handlers
mutate internal state across invocations. -/
def registeredView (m : Mediator) (key : TypeId) :
    Option ((TypeId × TypeId) × (Nat → Nat → Nat × Result)) :=
  (lookupEntry m.registry.entries key).map fun e => (e.valueTypeId, e.handler.handle)

/-- Concrete handler used in counterexamples and witnesses: ignores state,
returns 100. -/
def h100 : HandlerImpl := ⟨0, fun s _ => (s, Result.ok 100)⟩

/-- Concrete handler used in counterexamples and witnesses: ignores state,
returns 200. -/
def h200 : HandlerImpl := ⟨0, fun s _ => (s, Result.ok 200)⟩

/-- Concrete handler that always fails with an opaque handler error. -/
def hFail : HandlerImpl := ⟨0, fun s _ => (s, Result.err (BoxError.handlerError 9))⟩

/-- Mirror of the test-module `TestRequestHandler`: `handle` returns
`Ok(42)` and does not touch its state. -/
def testRequestHandler : HandlerImpl := ⟨0, fun s _ => (s, Result.ok 42)⟩

/-- Type id standing for the test-module request type `TestRequest`. -/
def testRequestTypeId : TypeId := 10

/-- Type id standing for the response type `i64` of `TestRequest`. -/
def i64TypeId : TypeId := 11

/-- A concrete registry holding one entry whose stored tag is `(0, 1)`,
used to exhibit the checked downcast failing on a tag mismatch. -/
def mismatchMap : TypeMap := ⟨[(0, ⟨(0, 1), h100⟩)]⟩

/- Helper lemmas about the association-list registry. -/

theorem lookupEntry_insertEntry_self (l : List (TypeId × Erased)) (k : TypeId)
    (v : Erased) : lookupEntry (insertEntry l k v) k = some v := by
  induction l with
  | nil => simp [insertEntry, lookupEntry]
  | cons p rest ih =>
    obtain ⟨k', v'⟩ := p
    by_cases hk : k' = k
    · simp [insertEntry, lookupEntry, hk]
    · simp [insertEntry, lookupEntry, hk, ih]

theorem lookupEntry_insertEntry_ne (l : List (TypeId × Erased)) (k k2 : TypeId)
    (v : Erased) (hne : k2 ≠ k) :
    lookupEntry (insertEntry l k v) k2 = lookupEntry l k2 := by
  have hne' : ¬(k = k2) := fun h => hne h.symm
  induction l with
  | nil => simp [insertEntry, lookupEntry, hne']
  | cons p rest ih =>
    obtain ⟨k', v'⟩ := p
    by_cases hk : k' = k
    · simp [insertEntry, lookupEntry, hk, hne, hne']
    · by_cases hk2 : k' = k2
      · simp [insertEntry, lookupEntry, hk, hk2, hne, hne']
      · simp [insertEntry, lookupEntry, hk, hk2, ih]

theorem insertEntry_insertEntry_self (l : List (TypeId × Erased)) (k : TypeId)
    (v w : Erased) : insertEntry (insertEntry l k v) k w = insertEntry l k w := by
  induction l with
  | nil => simp [insertEntry]
  | cons p rest ih =>
    obtain ⟨k', v'⟩ := p
    by_cases hk : k' = k
    · simp [insertEntry, hk]
    · simp [insertEntry, hk, ih]

theorem mem_keys_insertEntry (l : List (TypeId × Erased)) (k a : TypeId)
    (v : Erased) :
    a ∈ (insertEntry l k v).map Prod.fst ↔ a ∈ l.map Prod.fst ∨ a = k := by
  induction l with
  | nil => simp [insertEntry]
  | cons p rest ih =>
    obtain ⟨k', v'⟩ := p
    by_cases hk : k' = k
    · subst hk
      simp only [insertEntry, eq_self_iff_true, if_true, List.map_cons,
        List.mem_cons]
      tauto
    · simp only [insertEntry, if_neg hk, List.map_cons, List.mem_cons, ih]
      tauto

theorem nodup_keys_insertEntry (l : List (TypeId × Erased)) (k : TypeId)
    (v : Erased) (hnd : (l.map Prod.fst).Nodup) :
    ((insertEntry l k v).map Prod.fst).Nodup := by
  induction l with
  | nil => simp [insertEntry]
  | cons p rest ih =>
    obtain ⟨k', v'⟩ := p
    simp only [List.map_cons, List.nodup_cons] at hnd
    by_cases hk : k' = k
    · subst hk
      simpa [insertEntry, List.nodup_cons] using hnd
    · simp only [insertEntry, if_neg hk, List.map_cons, List.nodup_cons]
      refine ⟨?_, ih hnd.2⟩
      rw [mem_keys_insertEntry]
      rintro (h | h)
      · exact hnd.1 h
      · exact hk h

/-- Characterisation of a successful `get_mut`: it returns a handler exactly
when an entry is stored under the key and that entry's runtime tag equals the
requested value type; the handler returned is the stored one. -/
theorem get_mut_some_iff (m : TypeMap) (key : TypeId) (ty : TypeId × TypeId)
    (h : HandlerImpl) :
    m.get_mut key ty = some h ↔
      ∃ e, lookupEntry m.entries key = some e ∧ e.valueTypeId = ty ∧
        e.handler = h := by
  cases hl : lookupEntry m.entries key with
  | none => simp [TypeMap.get_mut, hl]
  | some e =>
    by_cases hty : e.valueTypeId = ty
    · subst hty
      simp [TypeMap.get_mut, hl]
    · simp [TypeMap.get_mut, hl, hty]

/-- If a handler is registered (stored) under key `rq` with tag `(rq, rs)`,
then `send rq rs` runs exactly that handler on its stored state and returns
the pair (state with the handler mutated in place, the handler's result). -/
theorem send_of_lookup (m : Mediator) (rq rs : TypeId) (h : HandlerImpl)
    (req : Nat)
    (hreg : lookupEntry m.registry.entries rq = some ⟨(rq, rs), h⟩) :
    m.send rq rs req =
      (⟨m.registry.set rq
          ⟨(rq, rs), { h with state := (h.handle h.state req).1 }⟩⟩,
        (h.handle h.state req).2) := by
  have hget : m.registry.get_mut rq (rq, rs) = some h := by
    rw [get_mut_some_iff]
    exact ⟨⟨(rq, rs), h⟩, hreg, rfl, rfl⟩
  simp [Mediator.send, hget]

/-- If `get_mut` misses, `send` leaves the state alone and returns the
mediator's own error. -/
theorem send_of_get_mut_none (m : Mediator) (rq rs : TypeId) (req : Nat)
    (hmiss : m.registry.get_mut rq (rq, rs) = none) :
    m.send rq rs req =
      (m, Result.err (BoxError.mediatorError
        MediatorError.handlerNotRegisteredError)) := by
  simp [Mediator.send, hmiss]

/-- A key absent from the registry stays absent across any single operation
that does not register for it. -/
theorem lookup_none_runOp (m : Mediator) (op : MOp) (rq : TypeId)
    (h0 : lookupEntry m.registry.entries rq = none)
    (hno : op.registersFor rq = false) :
    lookupEntry (runOp m op).registry.entries rq = none := by
  cases op with
  | register rq' rs' h =>
    have hne : rq ≠ rq' := by
      intro he
      subst he
      simp [MOp.registersFor] at hno
    simpa [runOp, Mediator.register_handler, TypeMap.set,
      lookupEntry_insertEntry_ne _ _ _ _ hne] using h0
  | send rq' rs' req =>
    cases hget : m.registry.get_mut rq' (rq', rs') with
    | none => simpa [runOp, Mediator.send, hget] using h0
    | some h =>
      have hne : rq ≠ rq' := by
        intro he
        subst he
        rw [get_mut_some_iff] at hget
        obtain ⟨e, he', -, -⟩ := hget
        rw [h0] at he'
        cases he'
      simp only [runOp, Mediator.send, hget, TypeMap.set]
      simpa [lookupEntry_insertEntry_ne _ _ _ _ hne] using h0

/-- A key absent from the registry stays absent across any history with no
registration for it. -/
theorem lookup_none_runOps (ops : List MOp) (m : Mediator) (rq : TypeId)
    (h0 : lookupEntry m.registry.entries rq = none)
    (hno : ∀ op ∈ ops, op.registersFor rq = false) :
    lookupEntry (runOps m ops).registry.entries rq = none := by
  induction ops generalizing m with
  | nil => simpa [runOps] using h0
  | cons op rest ih =>
    have h1 := lookup_none_runOp m op rq h0 (hno op (List.mem_cons_self op rest))
    have hrest : ∀ o ∈ rest, o.registersFor rq = false := fun o ho =>
      hno o (List.mem_cons_of_mem _ ho)
    simpa [runOps, List.foldl_cons] using ih (runOp m op) h1 hrest

/-- A single operation preserves distinctness of registry keys. -/
theorem nodup_keys_runOp (m : Mediator) (op : MOp)
    (hnd : (m.registry.entries.map Prod.fst).Nodup) :
    ((runOp m op).registry.entries.map Prod.fst).Nodup := by
  cases op with
  | register rq rs h =>
    simp only [runOp, Mediator.register_handler, TypeMap.set]
    exact nodup_keys_insertEntry _ _ _ hnd
  | send rq rs req =>
    cases hget : m.registry.get_mut rq (rq, rs) with
    | none => simpa [runOp, Mediator.send, hget] using hnd
    | some h =>
      simp only [runOp, Mediator.send, hget, TypeMap.set]
      exact nodup_keys_insertEntry _ _ _ hnd

/-- Any history preserves distinctness of registry keys. -/
theorem nodup_keys_runOps (ops : List MOp) (m : Mediator)
    (hnd : (m.registry.entries.map Prod.fst).Nodup) :
    ((runOps m ops).registry.entries.map Prod.fst).Nodup := by
  induction ops generalizing m with
  | nil => simpa [runOps] using hnd
  | cons op rest ih =>
    simpa [runOps, List.foldl_cons] using
      ih (runOp m op) (nodup_keys_runOp m op hnd)

/- Claim theorems. -/

/-- C1: for every request type with a handler registered for it (an entry
stored under the request type's id with the matching (request, response)
tag), `send` returns exactly what the handler's handle operation computes on
its stored state and the request value: success exactly when the handler
succeeds, with the identical value, the mediator adding and changing
nothing. -/
theorem send_returns_exactly_handler_result (m : Mediator) (rq rs : TypeId)
    (h : HandlerImpl) (req : Nat)
    (hreg : lookupEntry m.registry.entries rq = some ⟨(rq, rs), h⟩) :
    (m.send rq rs req).2 = (h.handle h.state req).2 := by
  rw [send_of_lookup m rq rs h req hreg]

/-- Witness for C1: a freshly registered `h100` is invoked by `send`, and
the result is exactly its own. -/
theorem send_returns_exactly_handler_result_witness :
    ((Mediator.new.register_handler 0 1 h100).send 0 1 7).2 =
      (h100.handle h100.state 7).2 :=
  send_returns_exactly_handler_result
    (Mediator.new.register_handler 0 1 h100) 0 1 h100 7 rfl

/-- C2: a history of operations starting from a fresh mediator that never
registers a handler for request type `rq` leaves every `send` for `rq`
returning the `HandlerNotRegisteredError` failure, never a success; in
particular (the empty history) a freshly constructed mediator fails this
way for every request type. -/
theorem send_never_registered_fails (ops : List MOp) (rq rs : TypeId)
    (req : Nat) (hno : ∀ op ∈ ops, op.registersFor rq = false) :
    ((runOps Mediator.new ops).send rq rs req).2 =
      Result.err (BoxError.mediatorError
        MediatorError.handlerNotRegisteredError) := by
  have h0 : lookupEntry Mediator.new.registry.entries rq = none := rfl
  have hl := lookup_none_runOps ops Mediator.new rq h0 hno
  have hmiss : (runOps Mediator.new ops).registry.get_mut rq (rq, rs) = none := by
    simp [TypeMap.get_mut, hl]
  rw [send_of_get_mut_none _ _ _ _ hmiss]

/-- Witness for C2: the empty history, i.e. a freshly constructed mediator,
at concrete type ids. -/
theorem send_never_registered_fails_witness :
    ((runOps Mediator.new []).send 0 1 5).2 =
      Result.err (BoxError.mediatorError
        MediatorError.handlerNotRegisteredError) :=
  send_never_registered_fails [] 0 1 5 (by simp)

/-- C3 counterexample: one program in which the same request type id 0 is
used, successfully, with two distinct response types (1 and 2): the request
trait is generic in the response type, so nothing ties a request type to a
single response type.  First a handler for (0, 1) is registered and served;
then a handler for (0, 2) is registered and served, in the same run. -/
theorem request_type_with_two_response_types :
    (1 : TypeId) ≠ 2 ∧
    ((Mediator.new.register_handler 0 1 h100).send 0 1 7).2 = Result.ok 100 ∧
    ((((Mediator.new.register_handler 0 1 h100).send 0 1 7).1.register_handler
        0 2 h200).send 0 2 7).2 = Result.ok 200 := by
  refine ⟨by decide, rfl, rfl⟩

/-- C3 as amended: a request type may be paired with several response types
across a program, but the registry holds at most one association per request
type at a time: after registering a handler for (rq, rs), a `send` for `rq`
that does not fail with `HandlerNotRegisteredError` must have asked for
exactly the response type `rs` of that most recent registration. -/
theorem send_success_response_type_unique (m : Mediator) (rq rs rs' : TypeId)
    (h : HandlerImpl) (req : Nat)
    (hok : ((m.register_handler rq rs h).send rq rs' req).2 ≠
      Result.err (BoxError.mediatorError
        MediatorError.handlerNotRegisteredError)) :
    rs' = rs := by
  by_contra hne
  have hl : lookupEntry (m.register_handler rq rs h).registry.entries rq =
      some ⟨(rq, rs), h⟩ := lookupEntry_insertEntry_self _ _ _
  have hne' : rs ≠ rs' := fun hh => hne hh.symm
  have hmiss : (m.register_handler rq rs h).registry.get_mut rq (rq, rs') =
      none := by
    simp [TypeMap.get_mut, hl, Prod.ext_iff, hne']
  rw [send_of_get_mut_none _ _ _ _ hmiss] at hok
  exact hok rfl

/-- Witness for the amended C3: with matching response types the send
succeeds, so the theorem applies and yields the (trivial) equality. -/
theorem send_success_response_type_unique_witness : (1 : TypeId) = 1 :=
  send_success_response_type_unique Mediator.new 0 1 1 h100 7 (by decide)

/-- C4: when the registered handler's handle operation returns a failure,
`send` returns that exact failure value, unmodified — not inspected, not
wrapped, not replaced by a mediator-originated failure. -/
theorem handler_failure_propagated_unchanged (m : Mediator) (rq rs : TypeId)
    (h : HandlerImpl) (req s' : Nat) (e : BoxError)
    (hreg : lookupEntry m.registry.entries rq = some ⟨(rq, rs), h⟩)
    (herr : h.handle h.state req = (s', Result.err e)) :
    (m.send rq rs req).2 = Result.err e := by
  rw [send_of_lookup m rq rs h req hreg, herr]

/-- Witness for C4: the always-failing handler's opaque error comes back
exactly as produced. -/
theorem handler_failure_propagated_unchanged_witness :
    ((Mediator.new.register_handler 0 1 hFail).send 0 1 3).2 =
      Result.err (BoxError.handlerError 9) :=
  handler_failure_propagated_unchanged
    (Mediator.new.register_handler 0 1 hFail) 0 1 hFail 3 0
    (BoxError.handlerError 9) rfl rfl

/-- C5: registering a second handler for an already-registered request type
yields exactly the state obtained by registering only the second handler —
the previous handler is replaced and unreachable, so every subsequent send
uses only the most recent registration — and, on every reachable mediator
state, the registry holds at most one entry per request type (its keys are
distinct).  Registration is a total operation: it has no failure mode. -/
theorem register_replaces_previous_and_at_most_one :
    (∀ (m : Mediator) (rq rs1 rs2 : TypeId) (h1 h2 : HandlerImpl),
      (m.register_handler rq rs1 h1).register_handler rq rs2 h2 =
        m.register_handler rq rs2 h2) ∧
    (∀ ops : List MOp,
      ((runOps Mediator.new ops).registry.entries.map Prod.fst).Nodup) := by
  constructor
  · intro m rq rs1 rs2 h1 h2
    simp [Mediator.register_handler, TypeMap.set, insertEntry_insertEntry_self]
  · intro ops
    exact nodup_keys_runOps ops Mediator.new (by simp [Mediator.new, TypeMap.new])

/-- C6: the registry's recovery step is checked: if the stored entry's
runtime tag differs from the requested value type, `get_mut` returns `none`
rather than reinterpreting, and every successful `get_mut` returns the
stored handler of an entry whose tag is exactly the requested
(request, response) pair. -/
theorem get_mut_checked_recovery (m : TypeMap) (key : TypeId)
    (ty : TypeId × TypeId) :
    (∀ e, lookupEntry m.entries key = some e → e.valueTypeId ≠ ty →
      m.get_mut key ty = none) ∧
    (∀ h, m.get_mut key ty = some h →
      ∃ e, lookupEntry m.entries key = some e ∧ e.valueTypeId = ty ∧
        e.handler = h) := by
  constructor
  · intro e he hne
    simp [TypeMap.get_mut, he, hne]
  · intro h hh
    exact (get_mut_some_iff m key ty h).mp hh

/-- Witness for C6: on a registry whose sole entry is tagged (0, 1), asking
to recover the entry at key 0 as type (0, 2) fails safely with `none`. -/
theorem get_mut_checked_recovery_witness :
    mismatchMap.get_mut 0 (0, 2) = none :=
  (get_mut_checked_recovery mismatchMap 0 (0, 2)).1 ⟨(0, 1), h100⟩ rfl
    (by decide)

/-- C7: with handlers registered for two distinct request types on the same
mediator, sending each request type invokes exactly its own handler: the
two registrations do not interfere. -/
theorem distinct_request_types_no_crosstalk (m : Mediator)
    (rq1 rs1 rq2 rs2 : TypeId) (h1 h2 : HandlerImpl) (req1 req2 : Nat)
    (hne : rq1 ≠ rq2) :
    (((m.register_handler rq1 rs1 h1).register_handler rq2 rs2 h2).send
        rq1 rs1 req1).2 = (h1.handle h1.state req1).2 ∧
    (((m.register_handler rq1 rs1 h1).register_handler rq2 rs2 h2).send
        rq2 rs2 req2).2 = (h2.handle h2.state req2).2 := by
  have hl2 : lookupEntry ((m.register_handler rq1 rs1 h1).register_handler
      rq2 rs2 h2).registry.entries rq2 = some ⟨(rq2, rs2), h2⟩ :=
    lookupEntry_insertEntry_self _ _ _
  have hl1 : lookupEntry ((m.register_handler rq1 rs1 h1).register_handler
      rq2 rs2 h2).registry.entries rq1 = some ⟨(rq1, rs1), h1⟩ := by
    show lookupEntry (insertEntry (insertEntry m.registry.entries rq1
      ⟨(rq1, rs1), h1⟩) rq2 ⟨(rq2, rs2), h2⟩) rq1 = some ⟨(rq1, rs1), h1⟩
    rw [lookupEntry_insertEntry_ne _ _ _ _ hne]
    exact lookupEntry_insertEntry_self _ _ _
  exact ⟨by rw [send_of_lookup _ rq1 rs1 h1 req1 hl1],
    by rw [send_of_lookup _ rq2 rs2 h2 req2 hl2]⟩

/-- Witness for C7: request types 1 and 2 with handlers `h100` and `h200`
each resolve to their own handler. -/
theorem distinct_request_types_no_crosstalk_witness :
    (((Mediator.new.register_handler 1 3 h100).register_handler 2 4 h200).send
        1 3 5).2 = (h100.handle h100.state 5).2 ∧
    (((Mediator.new.register_handler 1 3 h100).register_handler 2 4 h200).send
        2 4 6).2 = (h200.handle h200.state 6).2 :=
  distinct_request_types_no_crosstalk Mediator.new 1 3 2 4 h100 h200 5 6
    (by decide)

/-- C8: when a handler is registered for a request type under response type
`rsA` and a send for the same request type asks for a different response
type `rsB`, the checked recovery fails, so send returns the
`HandlerNotRegisteredError` failure and leaves the mediator state exactly
as it was: no panic, no success, and the handler registered under `rsA` is
not invoked (its state cannot change). -/
theorem send_wrong_response_type_fails (m : Mediator) (rq rsA rsB : TypeId)
    (h : HandlerImpl) (req : Nat) (hne : rsB ≠ rsA) :
    (m.register_handler rq rsA h).send rq rsB req =
      (m.register_handler rq rsA h,
        Result.err (BoxError.mediatorError
          MediatorError.handlerNotRegisteredError)) := by
  have hl : lookupEntry (m.register_handler rq rsA h).registry.entries rq =
      some ⟨(rq, rsA), h⟩ := lookupEntry_insertEntry_self _ _ _
  have hne' : rsA ≠ rsB := fun hh => hne hh.symm
  have hmiss : (m.register_handler rq rsA h).registry.get_mut rq (rq, rsB) =
      none := by
    simp [TypeMap.get_mut, hl, Prod.ext_iff, hne']
  exact send_of_get_mut_none _ _ _ _ hmiss

/-- Witness for C8: handler registered under (0, 1), send asking for
(0, 2): the not-registered failure, state untouched. -/
theorem send_wrong_response_type_fails_witness :
    (Mediator.new.register_handler 0 1 h100).send 0 2 7 =
      (Mediator.new.register_handler 0 1 h100,
        Result.err (BoxError.mediatorError
          MediatorError.handlerNotRegisteredError)) :=
  send_wrong_response_type_fails Mediator.new 0 1 2 h100 7 (by decide)

/-- C9: a `send` call never changes the registration state: for every key,
whether an entry is registered, the (request, response) tag it was
registered under, and the handler code stored there are identical before
and after the call, hit or miss.  (The handler's internal mutable state is
the one thing `send` may update, through the exclusive reference the spec's
data model grants it.) -/
theorem send_preserves_registration_state (m : Mediator) (rq rs : TypeId)
    (req : Nat) (k : TypeId) :
    registeredView ((m.send rq rs req).1) k = registeredView m k := by
  cases hget : m.registry.get_mut rq (rq, rs) with
  | none => simp [Mediator.send, hget]
  | some h =>
    obtain ⟨e, he, hty, hh⟩ := (get_mut_some_iff _ _ _ _).mp hget
    simp only [Mediator.send, hget, TypeMap.set]
    by_cases hk : k = rq
    · subst hk
      simp [registeredView, lookupEntry_insertEntry_self, he, ← hty, ← hh]
    · simp [registeredView, lookupEntry_insertEntry_ne _ _ _ _ hk]

/-- C10: the concrete scenario of the crate's own test: register the
test-request handler that returns 42, send the test request twice in
sequence; both calls succeed with 42 — the registered handler is retained
across dispatches. -/
theorem send_twice_returns_42 :
    (((Mediator.new.register_handler testRequestTypeId i64TypeId
        testRequestHandler).send testRequestTypeId i64TypeId 0).2 =
      Result.ok 42) ∧
    ((((Mediator.new.register_handler testRequestTypeId i64TypeId
        testRequestHandler).send testRequestTypeId i64TypeId 0).1.send
        testRequestTypeId i64TypeId 0).2 = Result.ok 42) :=
  ⟨rfl, rfl⟩

end Brazier
